import Mathlib

/-!
Shallow embedding of the upload/evaluate orchestration core of the
rfp-analyzing-ai-agent frontend (`FileUpload.tsx` and `AnalyzeResult.tsx`).

Files are modelled by their name and byte size; the three network calls
(two uploads, one evaluation) are modelled by a script of outcomes fed to
a pure transition function `onProcess` that also returns the trace of
issued network calls.  Machine numbers are `Nat`/`Int`; the JavaScript
expressions `Math.round(loaded * 100 / total)` and `Math.floor(pct * 0.4)`
are embedded as exact integer arithmetic (`(200*loaded + total) / (2*total)`
and `pct * 2 / 5`), which agree with the double-precision originals on the
relevant range `0 ≤ loaded ≤ total`, `pct ∈ [0, 100]`.
-/

/-- JavaScript `toLowerCase`, modelled structurally over the character list. -/
def strToLower (s : String) : String := ⟨s.data.map Char.toLower⟩

/-- JavaScript `String.prototype.endsWith`, modelled structurally. -/
def strEndsWith (s p : String) : Bool := List.isSuffixOf p.data s.data

/-- Model of `stripExt` from `FileUpload.tsx` lines 25-28: drop the extension after
the last dot, keeping the whole name when the last dot is at index 0 or
absent (`i > 0 ? name.slice(0, i) : name`). -/
def stripExt (name : String) : String :=
  match name.data.reverse.findIdx? (fun c => c == '.') with
  | none => name
  | some r =>
    let i := name.data.length - 1 - r
    if i > 0 then ⟨name.data.take i⟩ else name

/-- A candidate file: name and byte size (`File` objects as used by
`validate` and `uploadOne`). -/
structure JsFile where
  name : String
  size : Nat
deriving DecidableEq

/-- Constant `ACCEPTED_EXT = [".pdf", ".docx"]` from `FileUpload.tsx`. -/
def ACCEPTED_EXT : List String := [".pdf", ".docx"]

/-- Constant `MAX_BYTES = 20 * 1024 * 1024` from `FileUpload.tsx`. -/
def MAX_BYTES : Nat := 20 * 1024 * 1024

/-- Rejection message for a missing file (Korean source text). -/
def noFileMsg : String := "파일이 선택되지 않았어요."

/-- Rejection message for a disallowed extension. -/
def badFormatMsg : String := "허용되지 않는 형식입니다. (.pdf, .docx)"

/-- Rejection message for an oversized file. -/
def sizeLimitMsg : String := "파일 용량이 20MB를 초과합니다."

/-- Model of `validate` from `FileUpload.tsx` lines 93-99: empty string means the
file is accepted, otherwise the returned string is the rejection reason.
The checks run in source order: missing file, then extension
(case-insensitive suffix match), then size. -/
def validate : Option JsFile → String
  | none => noFileMsg
  | some file =>
    let lower := strToLower file.name
    if !(ACCEPTED_EXT.any fun ext => strEndsWith lower ext) then badFormatMsg
    else if file.size > MAX_BYTES then sizeLimitMsg
    else ""

/-- Shape of the `/upload` response (`UploadResponse` type in `FileUpload.tsx`):
optional fields are `Option`s, matching the TypeScript `?` markers. -/
structure UploadResponse where
  ok : Bool
  ready : Option Bool
  docID : String
  storeAs : String
  txtPath : Option String
  message : Option String
deriving DecidableEq

/-- The error information reachable from a caught axios error:
`e?.response?.data?.detail`, an optional server-provided detail string. -/
structure ErrInfo where
  detail : Option String
deriving DecidableEq

/-- The six metric keys of the new evaluation schema.  The constructors
carry a `k` prefix purely as Lean identifiers for "CP", "RI", "FP",
"ETS", "IO", "RM". -/
inductive MetricKey where
  | kCP | kRI | kFP | kETS | kIO | kRM
deriving DecidableEq

/-- One entry of the per-metric record in the new evaluation schema
(`{ metric?, score_10?, feedback?, raw? }`). -/
structure MetricEntry where
  metric : Option String
  score_10 : Option Int
  feedback : Option String
  raw : Option String
deriving DecidableEq

/-- The six-metric score record (`metricsScores`).  Field `IOv` is the
"IO" metric; values are optional because the JSON payload may omit a key
(the renderer defends with `?? 0`). -/
structure MetricsScores where
  CP : Option Int
  RI : Option Int
  FP : Option Int
  ETS : Option Int
  IOv : Option Int
  RM : Option Int
deriving DecidableEq

/-- One point of the radar-chart series (`{ axis, value }`). -/
structure RadarItem where
  axis : String
  value : Int
deriving DecidableEq

/-- Shape of the `similarity` block of the new schema. -/
structure SimilarityBlock where
  similarity_percent : Option Int
  feedback : Option String
  raw : Option String
deriving DecidableEq

/-- Shape of the `guideReview` block of the new schema. -/
structure GuideReview where
  overall_score_10 : Option Int
  feedback : Option String
  raw : Option String
deriving DecidableEq

/-- Model of `AnalyzeResponse` from `AnalyzeResult.tsx`: the union of the legacy
shape and the new six-metric shape; every field optional.  `metrics` is a
lookup from metric key to an optional entry, modelling
`data.metrics?.[k]`. -/
structure AnalyzeResponse where
  rfpId : Option String := none
  proposalId : Option String := none
  rfpSummary : Option String := none
  matchRate : Option Int := none
  radar : Option (List RadarItem) := none
  feedback : Option (List String) := none
  decision : Option String := none
  metrics : Option (MetricKey → Option MetricEntry) := none
  metricsScores : Option MetricsScores := none
  metricsTotal10 : Option Int := none
  similarity : Option SimilarityBlock := none
  guideReview : Option GuideReview := none

/-- Component state of `FileUpload`: the `useState` cells. -/
structure CompState where
  rfp : Option JsFile := none
  proposal : Option JsFile := none
  errRfp : String := ""
  errProp : String := ""
  progress : Nat := 0
  isProcessing : Bool := false
  message : String := ""
  result : Option AnalyzeResponse := none

/-- A network call issued by the component, as observed on the wire:
either a multipart upload (`docType`, derived `title`, progress offset)
or the single evaluation request with its JSON body. -/
inductive NetCall where
  | upload (docType : String) (title : String) (offset : Nat)
  | evaluate (proposalPath : String) (rfpPath : String) (guide : String)
deriving DecidableEq

/-- True exactly on evaluation requests. -/
def isEvalCall : NetCall → Bool
  | NetCall.evaluate _ _ _ => true
  | _ => false

/-- The fixed guideline reference sent with every evaluation request. -/
def guideRefPath : String := "guide/guide_reference.txt"

/-- Generic failure message used when the server provides no detail. -/
def genericErrorMsg : String := "처리 중 오류가 발생했습니다."

/-- Retry-soon advisory shown when a converted-text reference is missing. -/
def retryMsg : String := "텍스트 변환이 아직 완료되지 않았어요. 잠시 후 다시 시도해주세요."

/-- The analyzing message set on entering the evaluation phase. -/
def analyzingMsg : String := "분석 중…"

/-- The completion message set on success. -/
def doneMsg : String := "분석이 완료되었습니다."

/-- Message shown on a caught error:
`e?.response?.data?.detail ?? genericErrorMsg`. -/
def errMessage (e : ErrInfo) : String := e.detail.getD genericErrorMsg

/-- JavaScript truthiness of an optional string (`!x` is true exactly on
`undefined`/`null` and the empty string). -/
def jsTruthyStr : Option String → Bool
  | none => false
  | some s => s != ""

/-- The value reported by the `onUploadProgress` handler of `uploadOne`
(lines 129-135) for one progress event with `total > 0`:
`pct = Math.round(loaded * 100 / total)` embedded as round-half-up
`(200*loaded + total) / (2*total)`, then
`progressOffset + Math.floor(pct * 0.4)` embedded as `pct * 2 / 5`. -/
def uploadProgressValue (progressOffset loaded total : Nat) : Nat :=
  progressOffset + (loaded * 100 * 2 + total) / (2 * total) * 2 / 5

/-- One `onUploadProgress` event applied to the component state:
`evt.total ?? 0` zero means no report (`if (!total) return`). -/
def progressStep (progressOffset : Nat) (s : CompState) (ev : Nat × Nat) : CompState :=
  if ev.2 = 0 then s
  else { s with progress := uploadProgressValue progressOffset ev.1 ev.2 }

/-- The scripted behaviour of one `/upload` call: the progress events the
transport delivers (loaded, total pairs), then the outcome (response or
thrown error). -/
structure UploadScript where
  events : List (Nat × Nat)
  outcome : Except ErrInfo UploadResponse

/-- The scripted behaviour of the network during one `onProcess` run. -/
structure Script where
  rfpUp : UploadScript
  propUp : UploadScript
  evalOutcome : Except ErrInfo AnalyzeResponse

/-- Model of `onSelectRfp` (line 101): clear the error, store `none` on removal,
and on a selection store the file only when `validate` accepts it,
otherwise store the rejection reason and `none`. -/
def onSelectRfp (s : CompState) (f : Option JsFile) : CompState :=
  match f with
  | none => { s with errRfp := "", rfp := none }
  | some f =>
    let v := validate (some f)
    if v != "" then { s with errRfp := v, rfp := none }
    else { s with errRfp := "", rfp := some f }

/-- Model of `onSelectProp` (line 102), symmetric to `onSelectRfp`. -/
def onSelectProp (s : CompState) (f : Option JsFile) : CompState :=
  match f with
  | none => { s with errProp := "", proposal := none }
  | some f =>
    let v := validate (some f)
    if v != "" then { s with errProp := v, proposal := none }
    else { s with errProp := "", proposal := some f }

/-- Model of `canProcess` (line 104): `!!rfp && !!proposal && !isProcessing`. -/
def canProcess (s : CompState) : Bool :=
  s.rfp.isSome && s.proposal.isSome && !s.isProcessing

/-- Model of `onProcess` (lines 142-179) as one pure transition: given the initial
state and the network script it returns the final state and the trace of
network calls in issue order.  Mirrors the source: early return when a
file is missing; reset result/message/progress and set the busy flag;
upload RFP (offset 0) then Proposal (offset 40); guard on both `txtPath`
being truthy, else the retry advisory; set progress 80 and the analyzing
message, issue the evaluation call; on success store the result, the done
message and progress 100; any thrown error sets `errMessage`; the busy
flag is cleared on every path after the early return (`finally`). -/
def onProcess (s : CompState) (sc : Script) : CompState × List NetCall :=
  match s.rfp, s.proposal with
  | some rfp, some proposal =>
    let s0 : CompState :=
      { s with result := none, message := "", isProcessing := true, progress := 0 }
    let c1 : NetCall := NetCall.upload "RFP" (stripExt rfp.name) 0
    let s1 := sc.rfpUp.events.foldl (progressStep 0) s0
    match sc.rfpUp.outcome with
    | Except.error e => ({ s1 with message := errMessage e, isProcessing := false }, [c1])
    | Except.ok rfpUp =>
      let c2 : NetCall := NetCall.upload "Proposal" (stripExt proposal.name) 40
      let s2 := sc.propUp.events.foldl (progressStep 40) s1
      match sc.propUp.outcome with
      | Except.error e => ({ s2 with message := errMessage e, isProcessing := false }, [c1, c2])
      | Except.ok propUp =>
        if jsTruthyStr rfpUp.txtPath && jsTruthyStr propUp.txtPath then
          let s3 : CompState := { s2 with progress := 80, message := analyzingMsg }
          let c3 : NetCall :=
            NetCall.evaluate (propUp.txtPath.getD "") (rfpUp.txtPath.getD "") guideRefPath
          match sc.evalOutcome with
          | Except.error e =>
            ({ s3 with message := errMessage e, isProcessing := false }, [c1, c2, c3])
          | Except.ok d =>
            let s4 : CompState := { s3 with result := some d, message := doneMsg }
            ({ s4 with progress := 100, isProcessing := false }, [c1, c2, c3])
        else
          ({ s2 with message := retryMsg, isProcessing := false }, [c1, c2])
  | _, _ => (s, [])

/-- Model of `toRadarFromSix` from `AnalyzeResult.tsx` lines 34-44: empty when the
score record is absent, else the six axes in the fixed order
CP, RI, FP, ETS, IO, RM with `?? 0` defaults. -/
def toRadarFromSix : Option MetricsScores → List RadarItem
  | none => []
  | some scores =>
    [ ⟨"CP", scores.CP.getD 0⟩, ⟨"RI", scores.RI.getD 0⟩, ⟨"FP", scores.FP.getD 0⟩,
      ⟨"ETS", scores.ETS.getD 0⟩, ⟨"IO", scores.IOv.getD 0⟩, ⟨"RM", scores.RM.getD 0⟩ ]

/-- Model of `radarData` from `AnalyzeResult.tsx` line 50:
`six ? toRadarFromSix(six) : data.radar ?? []`. -/
def radarData (data : AnalyzeResponse) : List RadarItem :=
  match data.metricsScores with
  | some six => toRadarFromSix (some six)
  | none => data.radar.getD []

/-- The placeholder shown when a metric has neither feedback
nor raw text. -/
def noResponseMsg : String := "(응답 없음)"

/-- Per-metric feedback text from `AnalyzeResult.tsx` line 125:
`data.metrics?.[k]?.feedback ?? data.metrics?.[k]?.raw ?? "(응답 없음)"`.
`??` is nullish coalescing: it falls through only on an absent value,
never on a present empty string. -/
def metricFeedbackText (data : AnalyzeResponse) (k : MetricKey) : String :=
  match data.metrics.bind fun m => (m k).bind MetricEntry.feedback with
  | some s => s
  | none =>
    match data.metrics.bind fun m => (m k).bind MetricEntry.raw with
    | some s => s
    | none => noResponseMsg

/-- A slot of the selected-file pair satisfies the invariant when it is
empty or holds a file `validate` accepts. -/
def slotInv (o : Option JsFile) : Prop :=
  ∀ f, o = some f → validate (some f) = ""

/-- A response whose metric entries carry a present-but-empty feedback
string alongside non-empty raw text. -/
def emptyFeedbackResponse : AnalyzeResponse :=
  { metrics := some fun _ =>
      some { metric := none, score_10 := none, feedback := some "", raw := some "raw text" } }

/-- The spec's six-metric example record with scores
CP 8, RI 7, FP 6, ETS 9, IO 5, RM 7. -/
def c5SampleScores : MetricsScores := ⟨some 8, some 7, some 6, some 9, some 5, some 7⟩

/-- The spec's example payload: six-metric scores together with a legacy
radar array. -/
def c5SampleResponse : AnalyzeResponse :=
  { metricsScores := some c5SampleScores, radar := some [⟨"legacy", 1⟩] }

/-- A state holding a validated ".pdf" requirements file and a validated
".docx" proposal file, idle. -/
def readyState : CompState :=
  { rfp := some ⟨"req.pdf", 1024⟩, proposal := some ⟨"prop.docx", 2048⟩ }

/-- The state set at the start of a run (`onProcess` lines 144-147):
result cleared, message cleared, busy flag set, progress reset to 0. -/
def startRun (s : CompState) : CompState :=
  { s with result := none, message := "", isProcessing := true, progress := 0 }

/-- The canonical pair of validated input files. -/
def sampleRfpFile : JsFile := ⟨"req.pdf", 1024⟩

/-- The canonical proposal file. -/
def samplePropFile : JsFile := ⟨"prop.docx", 2048⟩

/-- An idle state with both files selected. -/
def bothState : CompState :=
  { rfp := some sampleRfpFile, proposal := some samplePropFile }

/-- A successful `/upload` response with the given converted-text
reference. -/
def okResp (p : Option String) : UploadResponse :=
  { ok := true, ready := some true, docID := "doc1", storeAs := "store/doc1",
    txtPath := p, message := none }

/-- A script whose requirements upload comes back without `txtPath`. -/
def noTxtScript : Script :=
  { rfpUp := ⟨[], Except.ok (okResp none)⟩,
    propUp := ⟨[], Except.ok (okResp (some "p.extracted.txt"))⟩,
    evalOutcome := Except.error ⟨none⟩ }

/-- A fully successful script: both uploads deliver complete progress
events and converted-text references, and the evaluation succeeds. -/
def okScript : Script :=
  { rfpUp := ⟨[(1024, 1024)], Except.ok (okResp (some "r.extracted.txt"))⟩,
    propUp := ⟨[(2048, 2048)], Except.ok (okResp (some "p.extracted.txt"))⟩,
    evalOutcome := Except.ok { metricsScores := some c5SampleScores } }

/-- The script whose evaluation call throws with a server detail message,
after both uploads succeed. -/
def errEvalScript : Script :=
  { rfpUp := ⟨[(512, 1024)], Except.ok (okResp (some "r.extracted.txt"))⟩,
    propUp := ⟨[], Except.ok (okResp (some "p.extracted.txt"))⟩,
    evalOutcome := Except.error ⟨some "evaluation backend unavailable"⟩ }

/-- The script whose proposal upload throws without a server detail,
after the requirements upload completed (progress 40) and the proposal
transfer reached the halfway point (progress 60). -/
def propErrScript : Script :=
  { rfpUp := ⟨[(1024, 1024)], Except.ok (okResp (some "r.extracted.txt"))⟩,
    propUp := ⟨[(1024, 2048)], Except.error ⟨none⟩⟩,
    evalOutcome := Except.error ⟨none⟩ }

/-- A state still holding the result of a previous run. -/
def staleState : CompState :=
  { rfp := some sampleRfpFile, proposal := some samplePropFile,
    result := some { rfpSummary := some "old summary" } }

/-- C1 counterexample: a 20 MiB + 1 byte file named "a.txt" exceeds the
size limit, yet `validate` returns the unsupported-format rejection, not
the size-limit rejection — the extension rule fires first. -/
theorem c1_oversize_counterexample :
    (20 * 1024 * 1024 + 1 : Nat) > 20 * 1024 * 1024 ∧
    validate (some ⟨"a.txt", 20 * 1024 * 1024 + 1⟩) ≠ sizeLimitMsg := by
  exact ⟨by decide, by decide⟩

/-- C1 (amended): for every file whose lowercased name ends in ".pdf" or
".docx" and whose byte size exceeds 20×1024×1024, `validate` returns the
size-limit rejection. -/
theorem c1_oversize_amended (f : JsFile)
    (hext : strEndsWith (strToLower f.name) ".pdf" = true ∨
            strEndsWith (strToLower f.name) ".docx" = true)
    (hsize : f.size > MAX_BYTES) :
    validate (some f) = sizeLimitMsg := by
  have hany : (ACCEPTED_EXT.any fun ext => strEndsWith (strToLower f.name) ext) = true := by
    rcases hext with h | h <;> simp [ACCEPTED_EXT, h]
  simp [validate, hany, hsize]

/-- C1 witness: the amended statement evaluated on a 20 MiB + 1 byte
".pdf" file. -/
theorem c1_oversize_amended_witness :
    validate (some ⟨"big.pdf", 20 * 1024 * 1024 + 1⟩) = sizeLimitMsg :=
  c1_oversize_amended ⟨"big.pdf", 20 * 1024 * 1024 + 1⟩ (Or.inl (by decide)) (by decide)

/-- C4 counterexample: at offset 0 with loaded = 99 of total = 1000 the
handler reports `floor(round(9.9) * 0.4) = 4`, while the claimed
`floor((loaded/total × 100) × 0.4) = floor(3.96)` is 3. -/
theorem c4_progress_counterexample :
    (0 : Nat) < 1000 ∧ (99 : Nat) ≤ 1000 ∧
    uploadProgressValue 0 99 1000 ≠ 0 + 99 * 40 / 1000 := by
  exact ⟨by decide, by decide, by decide⟩

/-- C4 (amended): for every progress event with `total > 0` and
`loaded ≤ total` the reported value is
`progressOffset + floor(round(loaded×100/total) × 0.4)` (round half-up);
each upload therefore contributes at most 40 points, and a completed
transfer (`loaded = total`) contributes exactly 40. -/
theorem c4_progress_amended (progressOffset loaded total : Nat)
    (htot : 0 < total) (hl : loaded ≤ total) :
    uploadProgressValue progressOffset loaded total
      = progressOffset + (loaded * 100 * 2 + total) / (2 * total) * 2 / 5 ∧
    uploadProgressValue progressOffset loaded total ≤ progressOffset + 40 ∧
    uploadProgressValue progressOffset total total = progressOffset + 40 := by
  have hpct : (loaded * 100 * 2 + total) / (2 * total) ≤ 100 := by
    have hlt : loaded * 100 * 2 + total < 101 * (2 * total) := by omega
    have := (Nat.div_lt_iff_lt_mul (by omega : 0 < 2 * total)).mpr hlt
    omega
  have h100 : (total * 100 * 2 + total) / (2 * total) = 100 := by
    have h1 : total * 100 * 2 + total = total + 2 * total * 100 := by ring
    rw [h1, Nat.add_mul_div_left _ _ (by omega : 0 < 2 * total),
      Nat.div_eq_of_lt (by omega : total < 2 * total)]
  refine ⟨rfl, ?_, ?_⟩
  · have h2 : (loaded * 100 * 2 + total) / (2 * total) * 2 ≤ 200 := by omega
    have h3 : (loaded * 100 * 2 + total) / (2 * total) * 2 / 5 ≤ 200 / 5 :=
      Nat.div_le_div_right h2
    unfold uploadProgressValue
    omega
  · unfold uploadProgressValue
    rw [h100]

/-- C4 witness: the amended statement evaluated at offset 0,
loaded 99, total 1000. -/
theorem c4_progress_amended_witness :
    uploadProgressValue 0 99 1000 = 0 + (99 * 100 * 2 + 1000) / (2 * 1000) * 2 / 5 ∧
    uploadProgressValue 0 99 1000 ≤ 0 + 40 ∧
    uploadProgressValue 0 1000 1000 = 0 + 40 :=
  c4_progress_amended 0 99 1000 (by decide) (by decide)

/-- C3 counterexample: with the CP feedback field present but equal to the
empty string, the displayed text is the empty string — `??` falls through
only on absent values, so neither the raw text nor the placeholder is
used. -/
theorem c3_empty_feedback_counterexample :
    (emptyFeedbackResponse.metrics.bind fun m =>
      (m MetricKey.kCP).bind MetricEntry.feedback) = some "" ∧
    metricFeedbackText emptyFeedbackResponse MetricKey.kCP = "" := by
  exact ⟨rfl, rfl⟩

/-- C3 (amended): for every metric key the displayed text is the feedback
field when present, else the raw field when present, else the
"(no response)" placeholder; it is non-empty provided any present
feedback or raw field is itself non-empty (a present empty feedback
string is displayed as the empty string). -/
theorem c3_metric_feedback_amended (data : AnalyzeResponse) (k : MetricKey) :
    (∀ s, (data.metrics.bind fun m => (m k).bind MetricEntry.feedback) = some s →
      metricFeedbackText data k = s) ∧
    ((data.metrics.bind fun m => (m k).bind MetricEntry.feedback) = none →
      ∀ s, (data.metrics.bind fun m => (m k).bind MetricEntry.raw) = some s →
      metricFeedbackText data k = s) ∧
    ((data.metrics.bind fun m => (m k).bind MetricEntry.feedback) = none →
      (data.metrics.bind fun m => (m k).bind MetricEntry.raw) = none →
      metricFeedbackText data k = noResponseMsg) ∧
    ((data.metrics.bind fun m => (m k).bind MetricEntry.feedback) ≠ some "" →
      (data.metrics.bind fun m => (m k).bind MetricEntry.raw) ≠ some "" →
      metricFeedbackText data k ≠ "") := by
  refine ⟨?_, ?_, ?_, ?_⟩
  · intro s hs
    simp [metricFeedbackText, hs]
  · intro hn s hs
    simp [metricFeedbackText, hn, hs]
  · intro hn hr
    simp [metricFeedbackText, hn, hr]
  · intro hfb hraw
    rcases hf : (data.metrics.bind fun m => (m k).bind MetricEntry.feedback) with _ | s
    · rcases hr : (data.metrics.bind fun m => (m k).bind MetricEntry.raw) with _ | t
      · simp [metricFeedbackText, hf, hr, noResponseMsg]
      · have ht : t ≠ "" := fun h => hraw (h ▸ hr)
        simp [metricFeedbackText, hf, hr, ht]
    · have hs : s ≠ "" := fun h => hfb (h ▸ hf)
      simp [metricFeedbackText, hf, hs]

/-- C3 witness: the amended statement evaluated on a response whose CP
entry has feedback "good coverage". -/
theorem c3_metric_feedback_amended_witness :
    metricFeedbackText
      { metrics := some fun _ =>
          some { metric := none, score_10 := some 8,
                 feedback := some "good coverage", raw := none } }
      MetricKey.kCP = "good coverage" :=
  (c3_metric_feedback_amended
    { metrics := some fun _ =>
        some { metric := none, score_10 := some 8,
               feedback := some "good coverage", raw := none } }
    MetricKey.kCP).1 "good coverage" rfl

/-- C5: when the six-metric score record is present the radar series is
exactly the six pairs in the fixed order CP, RI, FP, ETS, IO, RM with its
score values, independent of any legacy radar array in the same payload;
when it is absent the series is the legacy radar array verbatim, empty
when that too is absent. -/
theorem c5_radar_precedence (data : AnalyzeResponse) :
    (∀ s cp ri fp ets iov rm, data.metricsScores = some s →
      s.CP = some cp → s.RI = some ri → s.FP = some fp → s.ETS = some ets →
      s.IOv = some iov → s.RM = some rm →
      radarData data =
        [⟨"CP", cp⟩, ⟨"RI", ri⟩, ⟨"FP", fp⟩, ⟨"ETS", ets⟩, ⟨"IO", iov⟩, ⟨"RM", rm⟩]) ∧
    (data.metricsScores = none → radarData data = data.radar.getD []) := by
  constructor
  · intro s cp ri fp ets iov rm hs h1 h2 h3 h4 h5 h6
    simp [radarData, hs, toRadarFromSix, h1, h2, h3, h4, h5, h6]
  · intro h
    simp [radarData, h]

/-- C5 witness: the spec's example payload, legacy radar array present,
derives exactly the six ordered pairs. -/
theorem c5_radar_precedence_witness :
    radarData c5SampleResponse =
      [⟨"CP", 8⟩, ⟨"RI", 7⟩, ⟨"FP", 6⟩, ⟨"ETS", 9⟩, ⟨"IO", 5⟩, ⟨"RM", 7⟩] :=
  (c5_radar_precedence c5SampleResponse).1 c5SampleScores 8 7 6 9 5 7
    rfl rfl rfl rfl rfl rfl rfl

/-- C6: under the invariant that stored slots only hold validated files,
`canProcess` is true iff a validated requirements file is present, a
validated proposal file is present, and no run is in flight — and false
in every other combination. -/
theorem c6_canProcess_spec (s : CompState)
    (hr : slotInv s.rfp) (hp : slotInv s.proposal) :
    canProcess s = true ↔
      ((∃ f, s.rfp = some f ∧ validate (some f) = "") ∧
       (∃ g, s.proposal = some g ∧ validate (some g) = "") ∧
       s.isProcessing = false) := by
  rcases hrf : s.rfp with _ | f
  · simp [canProcess, hrf]
  · rcases hpp : s.proposal with _ | g
    · simp [canProcess, hrf, hpp]
    · have hvf := hr f hrf
      have hvg := hp g hpp
      simp [canProcess, hrf, hpp, hvf, hvg]

/-- C6 witness: the specification evaluated on `readyState`. -/
theorem c6_canProcess_spec_witness : canProcess readyState = true := by
  have hr : slotInv readyState.rfp := by
    intro f h
    simp only [readyState, Option.some.injEq] at h
    rw [← h]
    decide
  have hp : slotInv readyState.proposal := by
    intro g h
    simp only [readyState, Option.some.injEq] at h
    rw [← h]
    decide
  exact (c6_canProcess_spec readyState hr hp).mpr
    ⟨⟨_, rfl, by decide⟩, ⟨_, rfl, by decide⟩, rfl⟩

/-- C9: both selection handlers establish the slot invariant — the slot
they write always holds `none` or a file `validate` accepts — leave the
other slot untouched, and on a rejected file store `none` together with
the rejection reason in the matching error cell. -/
theorem c9_selection_invariant (s : CompState) (fo : Option JsFile) :
    slotInv (onSelectRfp s fo).rfp ∧ slotInv (onSelectProp s fo).proposal ∧
    (onSelectRfp s fo).proposal = s.proposal ∧ (onSelectProp s fo).rfp = s.rfp ∧
    (∀ f, fo = some f → validate (some f) ≠ "" →
      (onSelectRfp s fo).rfp = none ∧ (onSelectRfp s fo).errRfp = validate (some f) ∧
      (onSelectProp s fo).proposal = none ∧
      (onSelectProp s fo).errProp = validate (some f)) := by
  rcases fo with _ | f
  · simp [onSelectRfp, onSelectProp, slotInv]
  · by_cases hv : validate (some f) = ""
    · simp [onSelectRfp, onSelectProp, slotInv, hv]
    · simp [onSelectRfp, onSelectProp, slotInv, hv]

/-- C9 witness: the handler statement evaluated on the empty state and a
rejected ".exe" file. -/
theorem c9_selection_invariant_witness :
    (onSelectRfp {} (some ⟨"virus.exe", 10⟩)).rfp = none ∧
    (onSelectRfp {} (some ⟨"virus.exe", 10⟩)).errRfp = validate (some ⟨"virus.exe", 10⟩) ∧
    (onSelectProp {} (some ⟨"virus.exe", 10⟩)).proposal = none := by
  have h := (c9_selection_invariant {} (some ⟨"virus.exe", 10⟩)).2.2.2.2
    ⟨"virus.exe", 10⟩ rfl (by decide)
  exact ⟨h.1, h.2.1, h.2.2.1⟩

/-- A progress event only writes the `progress` cell. -/
theorem progressStep_result (off : Nat) (s : CompState) (ev : Nat × Nat) :
    (progressStep off s ev).result = s.result := by
  unfold progressStep
  split <;> rfl

/-- Folding progress events over a state leaves `result` unchanged. -/
theorem foldl_progressStep_result (off : Nat) (l : List (Nat × Nat)) (s : CompState) :
    (l.foldl (progressStep off) s).result = s.result := by
  induction l generalizing s with
  | nil => rfl
  | cons a l ih => simp [List.foldl, ih, progressStep_result]

/-- C2: when both uploads respond but either response lacks a
converted-text reference, the run ends with the retry-soon advisory and
the trace contains zero evaluation requests. -/
theorem c2_txtpath_guard (s : CompState) (sc : Script) (f g : JsFile)
    (ru pu : UploadResponse)
    (hf : s.rfp = some f) (hg : s.proposal = some g)
    (hru : sc.rfpUp.outcome = Except.ok ru) (hpu : sc.propUp.outcome = Except.ok pu)
    (habs : ru.txtPath = none ∨ pu.txtPath = none) :
    (onProcess s sc).1.message = retryMsg ∧
    ((onProcess s sc).2.countP isEvalCall) = 0 := by
  rcases habs with h | h
  · simp [onProcess, hf, hg, hru, hpu, jsTruthyStr, h, isEvalCall]
  · simp [onProcess, hf, hg, hru, hpu, jsTruthyStr, h, isEvalCall]

/-- C2 witness: the guard statement evaluated on `noTxtScript`. -/
theorem c2_txtpath_guard_witness :
    (onProcess bothState noTxtScript).1.message = retryMsg ∧
    ((onProcess bothState noTxtScript).2.countP isEvalCall) = 0 :=
  c2_txtpath_guard bothState noTxtScript sampleRfpFile samplePropFile
    (okResp none) (okResp (some "p.extracted.txt")) rfl rfl rfl rfl (Or.inl rfl)

/-- C7: in every successful run the trace is exactly the requirements
upload at offset 0, then the proposal upload at offset 40, then one
evaluation request carrying both converted-text references and the fixed
guideline reference — in that order. -/
theorem c7_success_trace (s : CompState) (sc : Script) (f g : JsFile)
    (ru pu : UploadResponse) (d : AnalyzeResponse) (rt pt : String)
    (hf : s.rfp = some f) (hg : s.proposal = some g)
    (hru : sc.rfpUp.outcome = Except.ok ru) (hpu : sc.propUp.outcome = Except.ok pu)
    (hrt : ru.txtPath = some rt) (hrtne : rt ≠ "")
    (hpt : pu.txtPath = some pt) (hptne : pt ≠ "")
    (hev : sc.evalOutcome = Except.ok d) :
    (onProcess s sc).2 =
      [NetCall.upload "RFP" (stripExt f.name) 0,
       NetCall.upload "Proposal" (stripExt g.name) 40,
       NetCall.evaluate pt rt guideRefPath] := by
  simp [onProcess, hf, hg, hru, hpu, hev, hrt, hpt, jsTruthyStr, hrtne, hptne]

/-- C7 witness: the trace statement evaluated on `okScript`. -/
theorem c7_success_trace_witness :
    (onProcess bothState okScript).2 =
      [NetCall.upload "RFP" (stripExt sampleRfpFile.name) 0,
       NetCall.upload "Proposal" (stripExt samplePropFile.name) 40,
       NetCall.evaluate "p.extracted.txt" "r.extracted.txt" guideRefPath] :=
  c7_success_trace bothState okScript sampleRfpFile samplePropFile
    (okResp (some "r.extracted.txt")) (okResp (some "p.extracted.txt"))
    { metricsScores := some c5SampleScores } "r.extracted.txt" "p.extracted.txt"
    rfl rfl rfl rfl rfl (by decide) rfl (by decide) rfl

/-- C8: once a run has started, the processing flag is cleared on every
termination path; every network/server error displays the server detail
when available and the generic failure message otherwise; progress is
left at its last value — the value reached by the progress events when an
upload throws, the checkpoint 80 when the evaluation throws. -/
theorem c8_error_termination (s : CompState) (sc : Script) (f g : JsFile)
    (hf : s.rfp = some f) (hg : s.proposal = some g) :
    (onProcess s sc).1.isProcessing = false ∧
    (∀ e, sc.rfpUp.outcome = Except.error e →
      (onProcess s sc).1.message = e.detail.getD genericErrorMsg ∧
      (onProcess s sc).1.progress =
        (sc.rfpUp.events.foldl (progressStep 0) (startRun s)).progress) ∧
    (∀ e ru, sc.rfpUp.outcome = Except.ok ru → sc.propUp.outcome = Except.error e →
      (onProcess s sc).1.message = e.detail.getD genericErrorMsg ∧
      (onProcess s sc).1.progress =
        (sc.propUp.events.foldl (progressStep 40)
          (sc.rfpUp.events.foldl (progressStep 0) (startRun s))).progress) ∧
    (∀ e ru pu, sc.rfpUp.outcome = Except.ok ru → sc.propUp.outcome = Except.ok pu →
      jsTruthyStr ru.txtPath = true → jsTruthyStr pu.txtPath = true →
      sc.evalOutcome = Except.error e →
      (onProcess s sc).1.message = e.detail.getD genericErrorMsg ∧
      (onProcess s sc).1.progress = 80) := by
  refine ⟨?_, ?_, ?_, ?_⟩
  · rcases hro : sc.rfpUp.outcome with e | ru
    · simp [onProcess, hf, hg, hro]
    · rcases hpo : sc.propUp.outcome with e | pu
      · simp [onProcess, hf, hg, hro, hpo]
      · rcases heo : sc.evalOutcome with e | d <;>
          cases ht1 : jsTruthyStr ru.txtPath <;>
          cases ht2 : jsTruthyStr pu.txtPath <;>
          simp [onProcess, hf, hg, hro, hpo, heo, ht1, ht2]
  · intro e hro
    simp [onProcess, hf, hg, hro, errMessage, startRun]
  · intro e ru hro hpo
    simp [onProcess, hf, hg, hro, hpo, errMessage, startRun]
  · intro e ru pu hro hpo ht1 ht2 hev
    simp [onProcess, hf, hg, hro, hpo, ht1, ht2, hev, errMessage]

/-- C8 witness: the termination statement evaluated on `errEvalScript`
(evaluation throws at the 80 checkpoint) and on `propErrScript` (the
proposal upload throws with progress left at 60, the last event value,
and no server detail so the generic message shows). -/
theorem c8_error_termination_witness :
    (onProcess bothState errEvalScript).1.isProcessing = false ∧
    (onProcess bothState errEvalScript).1.message = "evaluation backend unavailable" ∧
    (onProcess bothState errEvalScript).1.progress = 80 ∧
    (onProcess bothState propErrScript).1.message = genericErrorMsg ∧
    (onProcess bothState propErrScript).1.progress = 60 := by
  have h := c8_error_termination bothState errEvalScript sampleRfpFile samplePropFile rfl rfl
  have h4 := h.2.2.2 ⟨some "evaluation backend unavailable"⟩
    (okResp (some "r.extracted.txt")) (okResp (some "p.extracted.txt"))
    rfl rfl (by decide) (by decide) rfl
  have hq := (c8_error_termination bothState propErrScript sampleRfpFile samplePropFile
    rfl rfl).2.2.1 ⟨none⟩ (okResp (some "r.extracted.txt")) rfl rfl
  exact ⟨h.1, h4.1, h4.2, hq.1, hq.2.trans (by decide)⟩

/-- C10: a run stores a result only when the evaluation response itself
succeeded with that very payload; on each failure path — a thrown upload,
a missing converted-text reference, or a thrown evaluation — the run ends
with no stored result, whatever result the state held before. -/
theorem c10_result_lifecycle (s : CompState) (sc : Script) (f g : JsFile)
    (hf : s.rfp = some f) (hg : s.proposal = some g) :
    (∀ d, (onProcess s sc).1.result = some d → sc.evalOutcome = Except.ok d) ∧
    (∀ e, sc.rfpUp.outcome = Except.error e → (onProcess s sc).1.result = none) ∧
    (∀ e ru, sc.rfpUp.outcome = Except.ok ru → sc.propUp.outcome = Except.error e →
      (onProcess s sc).1.result = none) ∧
    (∀ ru pu, sc.rfpUp.outcome = Except.ok ru → sc.propUp.outcome = Except.ok pu →
      (jsTruthyStr ru.txtPath && jsTruthyStr pu.txtPath) = false →
      (onProcess s sc).1.result = none) ∧
    (∀ e, sc.evalOutcome = Except.error e → (onProcess s sc).1.result = none) := by
  refine ⟨?_, ?_, ?_, ?_, ?_⟩
  · intro d hd
    rcases hro : sc.rfpUp.outcome with e | ru
    · simp [onProcess, hf, hg, hro, foldl_progressStep_result] at hd
    · rcases hpo : sc.propUp.outcome with e | pu
      · simp [onProcess, hf, hg, hro, hpo, foldl_progressStep_result] at hd
      · rcases heo : sc.evalOutcome with e | d0
        · cases ht1 : jsTruthyStr ru.txtPath <;>
            cases ht2 : jsTruthyStr pu.txtPath <;>
            simp [onProcess, hf, hg, hro, hpo, heo, ht1, ht2,
              foldl_progressStep_result] at hd
        · cases ht1 : jsTruthyStr ru.txtPath <;>
            cases ht2 : jsTruthyStr pu.txtPath <;>
            simp [onProcess, hf, hg, hro, hpo, heo, ht1, ht2,
              foldl_progressStep_result] at hd
          rw [hd]
  · intro e hro
    simp [onProcess, hf, hg, hro, foldl_progressStep_result]
  · intro e ru hro hpo
    simp [onProcess, hf, hg, hro, hpo, foldl_progressStep_result]
  · intro ru pu hro hpo hcond
    simp [onProcess, hf, hg, hro, hpo, hcond, foldl_progressStep_result]
  · intro e hev
    rcases hro : sc.rfpUp.outcome with e1 | ru
    · simp [onProcess, hf, hg, hro, foldl_progressStep_result]
    · rcases hpo : sc.propUp.outcome with e1 | pu
      · simp [onProcess, hf, hg, hro, hpo, foldl_progressStep_result]
      · cases ht1 : jsTruthyStr ru.txtPath <;>
          cases ht2 : jsTruthyStr pu.txtPath <;>
          simp [onProcess, hf, hg, hro, hpo, hev, ht1, ht2,
            foldl_progressStep_result]

/-- C10 witness: a run over a failing evaluation clears the previously
stored result. -/
theorem c10_result_lifecycle_witness :
    (onProcess staleState errEvalScript).1.result = none :=
  (c10_result_lifecycle staleState errEvalScript sampleRfpFile samplePropFile
    rfl rfl).2.2.2.2 ⟨some "evaluation backend unavailable"⟩ rfl
